import Mathlib

/-!
Verification of the Zoomin screen magnifier (src/Zoomin/main.cpp) against its
natural-language specification.  The GPU shader arithmetic, the zoom-smoothing
controller, the toggle flags, the frame-pacing sleep, the device-creation
fallback chain and the two-slot capture relay are shallowly embedded below;
float arithmetic is modelled exactly over the rationals.
-/

namespace Zoomin

/-! ## Constants (main.cpp lines 41-46) -/

def MAX_FRAME_LATENCY : Nat := 1
def DEFAULT_ZOOM : ℚ := 1
def ZOOMED_MAGNIFICATION : ℚ := 2
def ZOOM_SMOOTHING_FACTOR : ℚ := 1/5

/-! ## Pixel shader (psCode inside CreateShaders, main.cpp lines 686-723)

The fragment program computes `dir = texCoord - center`, divides by the
magnification factor, offsets back by the center, and either samples the
frame texture at the resulting coordinate or emits transparent black. -/

/-- The shader constant `float2 center = float2(0.5, 0.5);` (line 702). -/
def shaderCenter : ℚ × ℚ := (1/2, 1/2)

/-- Lines 705-711: `dir = input.texCoord - center; dir = dir / magnificationFactor;
zoomedCoord = center + dir`. -/
def zoomedCoord (magnificationFactor : ℚ) (texCoord : ℚ × ℚ) : ℚ × ℚ :=
  let dir : ℚ × ℚ := (texCoord.1 - shaderCenter.1, texCoord.2 - shaderCenter.2)
  let dirZ : ℚ × ℚ := (dir.1 / magnificationFactor, dir.2 / magnificationFactor)
  (shaderCenter.1 + dirZ.1, shaderCenter.2 + dirZ.2)

/-- Result of the pixel shader: either a texture fetch at a coordinate, or the
constant `float4(0.0, 0.0, 0.0, 0.0)` with no texture read. -/
inductive PSOutput where
  | sampled (coord : ℚ × ℚ)
  | transparentBlack
deriving DecidableEq

/-- The bounds test of lines 714-715:
`zoomedCoord.x >= 0.0 && zoomedCoord.x <= 1.0 && zoomedCoord.y >= 0.0 && zoomedCoord.y <= 1.0`. -/
def insideUnitSquare (p : ℚ × ℚ) : Prop :=
  0 ≤ p.1 ∧ p.1 ≤ 1 ∧ 0 ≤ p.2 ∧ p.2 ≤ 1

instance (p : ℚ × ℚ) : Decidable (insideUnitSquare p) := by
  unfold insideUnitSquare; infer_instance

/-- The pixel shader body (lines 700-722): sample within bounds, transparent
black otherwise. -/
def psMain (magnificationFactor : ℚ) (texCoord : ℚ × ℚ) : PSOutput :=
  if insideUnitSquare (zoomedCoord magnificationFactor texCoord) then
    PSOutput.sampled (zoomedCoord magnificationFactor texCoord)
  else
    PSOutput.transparentBlack

/-- The spec's magnification law, written from its own words:
`sampleUv = (0.5,0.5) + (uv - (0.5,0.5)) / zoomFactor`. -/
def specSampleUv (zoomFactor : ℚ) (uv : ℚ × ℚ) : ℚ × ℚ :=
  (1/2 + (uv.1 - 1/2) / zoomFactor, 1/2 + (uv.2 - 1/2) / zoomFactor)

/-- Squared Euclidean distance of a texture coordinate from the screen center. -/
def distSqToCenter (p : ℚ × ℚ) : ℚ :=
  (p.1 - 1/2)^2 + (p.2 - 1/2)^2

/-! ## Zoom controller (ProcessFrame, main.cpp lines 938-946)

```
float targetZoom = (GetAsyncKeyState(VK_RBUTTON) & 0x8000) ? ZOOMED_MAGNIFICATION : DEFAULT_ZOOM;
float currentZoom = g_CurrentZoom.load();
float smoothFactor = std::min(1.0f, dt_ms * ZOOM_SMOOTHING_FACTOR);
float newZoom = currentZoom + (targetZoom - currentZoom) * smoothFactor;
```
-/

/-- The per-tick target zoom (line 939). -/
def targetZoomOf (rightButtonHeld : Bool) : ℚ :=
  if rightButtonHeld then ZOOMED_MAGNIFICATION else DEFAULT_ZOOM

/-- One tick of the zoom-smoothing update (lines 943-946). -/
def zoomStep (currentZoom : ℚ) (rightButtonHeld : Bool) (dt_ms : ℚ) : ℚ :=
  let targetZoom := targetZoomOf rightButtonHeld
  let smoothFactor := min 1 (dt_ms * ZOOM_SMOOTHING_FACTOR)
  currentZoom + (targetZoom - currentZoom) * smoothFactor

/-- The smoothing window of the spec's formulation `min(1, dt/smoothingWindow)`:
since the code multiplies `dt_ms` by `ZOOM_SMOOTHING_FACTOR = 0.2`, the window
is 5 milliseconds. -/
def smoothingWindow : ℚ := 5

/-- The zoom value after a sequence of ticks, each tick a pair of the trigger
state and the elapsed milliseconds.  `g_CurrentZoom` is initialised to
`DEFAULT_ZOOM` (line 94) and written only by the smoothing step (line 946). -/
def zoomTrace (ticks : List (Bool × ℚ)) : ℚ :=
  ticks.foldl (fun c t => zoomStep c t.1 t.2) DEFAULT_ZOOM

/-- The full sequence of zoom values (including the initial one) along a run of
ticks during which the trigger is held continuously. -/
def heldZoomSeq (dts : List ℚ) : List ℚ :=
  List.scanl (fun c dt => zoomStep c true dt) DEFAULT_ZOOM dts

/-! ## Visibility toggle (LowLevelKeyboardProc lines 144-152, main lines 1030-1041)

The hook thread sets `g_WindowToggleRequest` to true; the main loop, once per
tick, tests it, flips `g_WindowVisible`, and clears the flag. -/

structure ToggleState where
  windowVisible : Bool
  windowToggleRequest : Bool
deriving DecidableEq

/-- The hook thread's action on Numpad 8 (line 150): `g_WindowToggleRequest = true;`. -/
def requestToggle (s : ToggleState) : ToggleState :=
  { s with windowToggleRequest := true }

/-- The main loop's per-tick consumption (lines 1030-1041): if the flag is set,
flip visibility and clear the flag. -/
def processToggle (s : ToggleState) : ToggleState :=
  if s.windowToggleRequest then
    { windowVisible := !s.windowVisible, windowToggleRequest := false }
  else s

/-! ## Frame pacing (main.cpp lines 1020, 1043-1053)

```
const auto targetFrameTime = std::chrono::microseconds(8333); // ~120 FPS target
...
if (frameDuration < targetFrameTime) {
    auto sleepTime = std::min(
        std::chrono::duration_cast<std::chrono::nanoseconds>(targetFrameTime - frameDuration),
        std::chrono::nanoseconds(1)
    );
    std::this_thread::sleep_for(sleepTime);
}
```
Durations are modelled in nanoseconds. -/

/-- The constant `std::chrono::microseconds(8333)` of line 1020, in nanoseconds. -/
def targetFrameTime_ns : Nat := 8333 * 1000

/-- The sleep duration the main loop actually requests for a tick that took
`frameDuration_ns` nanoseconds (lines 1047-1053); no sleep when the tick ran
long. -/
def mainLoopSleep_ns (frameDuration_ns : Nat) : Nat :=
  if frameDuration_ns < targetFrameTime_ns then
    min (targetFrameTime_ns - frameDuration_ns) 1
  else 0

/-- Reference definition following the spec's words: the sleep the spec prescribes — "sleep the
remainder of a fixed target tick duration (≈8.3 ms, ~120 Hz) if the tick
finished early". -/
def specSleepRemainder_ns (frameDuration_ns : Nat) : Nat :=
  if frameDuration_ns < targetFrameTime_ns then
    targetFrameTime_ns - frameDuration_ns
  else 0

/-! ## Device creation fallback chain (InitializeDirectX, main.cpp lines 537-606)

The environment records, for each driver type and debug-flag setting, whether
`D3D11CreateDevice` succeeds, and whether the `IDXGIDevice1` interface query
(line 603) succeeds.  `dbgBuild` is the `_DEBUG` preprocessor flag that decides
whether `D3D11_CREATE_DEVICE_DEBUG` is initially set (lines 543-546). -/

inductive DriverType where
  | hardware
  | warp
deriving DecidableEq

structure D3DEnv where
  createDeviceOk : DriverType → Bool → Bool
  dxgi1Available : Bool

structure DeviceInitResult where
  success : Bool
  driverUsed : Option (DriverType × Bool)
  maxFrameLatency : Option Nat
deriving DecidableEq

/-- State after a successful `D3D11CreateDevice`: lines 601-606 query
`IDXGIDevice1` and pin the frame latency only if that query succeeds. -/
def deviceCreated (env : D3DEnv) (driver : DriverType) (debugFlag : Bool) : DeviceInitResult :=
  { success := true
    driverUsed := some (driver, debugFlag)
    maxFrameLatency := if env.dxgi1Available then some MAX_FRAME_LATENCY else none }

/-- The device-creation portion of `InitializeDirectX` (lines 543-606):
hardware with the build's flags first; if that fails and the debug layer was
requested, hardware again without it (lines 572-579); if still failing, WARP
(lines 582-593); fatal only when nothing succeeded. -/
def initializeDirectXDevice (dbgBuild : Bool) (env : D3DEnv) : DeviceInitResult :=
  if env.createDeviceOk DriverType.hardware dbgBuild then
    deviceCreated env DriverType.hardware dbgBuild
  else if dbgBuild then
    if env.createDeviceOk DriverType.hardware false then
      deviceCreated env DriverType.hardware false
    else if env.createDeviceOk DriverType.warp false then
      deviceCreated env DriverType.warp false
    else { success := false, driverUsed := none, maxFrameLatency := none }
  else if env.createDeviceOk DriverType.warp false then
    deviceCreated env DriverType.warp false
  else { success := false, driverUsed := none, maxFrameLatency := none }

/-! ## Capture slots, frame arrival and rendering
(OnFrameArrived lines 348-414, RenderCurrentFrame lines 831-857)

`g_CaptureTextures[2]` is the two-slot relay; `g_CurrentCaptureTexture` names
the slot the consumer reads; `g_FrameShaderResourceView` is created lazily in
`RenderCurrentFrame` and only when it is still null.  Textures carry a
generation number so that a recreated texture is distinguishable from the one
it replaced. -/

structure TextureDesc where
  width : Int
  height : Int
  gen : Nat
deriving DecidableEq

structure CaptureState where
  screenWidth : Int
  screenHeight : Int
  tex0 : Option TextureDesc
  tex1 : Option TextureDesc
  currentCaptureTexture : Fin 2
  frameSRV : Option Nat
  nextGen : Nat
deriving DecidableEq

def getTex (s : CaptureState) (i : Fin 2) : Option TextureDesc :=
  if i = 0 then s.tex0 else s.tex1

def setTex (s : CaptureState) (i : Fin 2) (t : Option TextureDesc) : CaptureState :=
  if i = 0 then { s with tex0 := t } else { s with tex1 := t }

/-- The producer write target `int nextTexture = (g_CurrentCaptureTexture + 1) % 2;` (line 365). -/
def nextSlot (s : CaptureState) : Fin 2 :=
  ⟨(s.currentCaptureTexture.val + 1) % 2, Nat.mod_lt _ (by omega)⟩

/-- The slot the render consumer reads: `g_CaptureTextures[g_CurrentCaptureTexture]`
(lines 832, 839, 848). -/
def readSlot (s : CaptureState) : Fin 2 :=
  s.currentCaptureTexture

/-- The handler `OnFrameArrived` on the success path of frame-texture acquisition
(lines 363-409).  `createOk` is whether `CreateTexture2D` succeeds when a
recreation is needed; on its failure the handler returns early (line 397)
with the slot texture already reset and the global dimensions already
updated. -/
def onFrameArrived (createOk : Bool) (w h : Int) (s : CaptureState) : CaptureState :=
  let next := nextSlot s
  if getTex s next = none ∨ w ≠ s.screenWidth ∨ h ≠ s.screenHeight then
    let s1 : CaptureState := { s with screenWidth := w, screenHeight := h }
    let s2 := setTex s1 next none
    if createOk then
      let s3 := setTex s2 next (some { width := w, height := h, gen := s2.nextGen })
      let s4 : CaptureState := { s3 with nextGen := s3.nextGen + 1 }
      { s4 with currentCaptureTexture := next }
    else s2
  else
    { s with currentCaptureTexture := next }

/-- The function `RenderCurrentFrame` restricted to what it reads and which shader resource
view it samples through (lines 831-857, 897).  Returns the updated state and
the generation of the texture the draw call samples via
`g_FrameShaderResourceView` (`none` when the function returned early without
drawing).  `srvCreateOk` is whether `CreateShaderResourceView` succeeds when
the view has to be created. -/
def renderCurrentFrame (srvCreateOk : Bool) (s : CaptureState) : CaptureState × Option Nat :=
  match getTex s (readSlot s) with
  | none => (s, none)
  | some t =>
    match s.frameSRV with
    | some g => (s, some g)
    | none =>
      if srvCreateOk then ({ s with frameSRV := some t.gen }, some t.gen)
      else (s, none)

/-- Initial capture state: no slot textures, slot index 0, no shader resource
view (lines 70-71, 86). -/
def captureInit (w h : Int) : CaptureState :=
  { screenWidth := w, screenHeight := h, tex0 := none, tex1 := none
    currentCaptureTexture := 0, frameSRV := none, nextGen := 0 }

/-! ### Micro-operation trace of `OnFrameArrived`

To state the ordering discipline of the producer (copy first, index flip
after), the handler's side effects are listed in program order. -/

inductive RelayOp where
  | resetTexture (slot : Fin 2)
  | createTexture (slot : Fin 2)
  | copyInto (slot : Fin 2)
  | setCurrentIndex (slot : Fin 2)
deriving DecidableEq

/-- The side effects of `OnFrameArrived` in the order the source performs them
(lines 365-405): optional reset+recreate of the inactive slot's texture, the
`CopyResource` into that slot, then the `g_CurrentCaptureTexture = nextTexture`
index flip. -/
def onFrameArrivedOps (createOk : Bool) (w h : Int) (s : CaptureState) : List RelayOp :=
  let next := nextSlot s
  if getTex s next = none ∨ w ≠ s.screenWidth ∨ h ≠ s.screenHeight then
    if createOk then
      [RelayOp.resetTexture next, RelayOp.createTexture next,
       RelayOp.copyInto next, RelayOp.setCurrentIndex next]
    else
      [RelayOp.resetTexture next]
  else
    [RelayOp.copyInto next, RelayOp.setCurrentIndex next]

/-- Whether some `setCurrentIndex` occurs strictly before some `copyInto` in an
operation list. -/
def indexFlipBeforeCopy : List RelayOp → Bool
  | [] => false
  | RelayOp.setCurrentIndex _ :: rest =>
      rest.any (fun op => match op with | RelayOp.copyInto _ => true | _ => false)
        || indexFlipBeforeCopy rest
  | _ :: rest => indexFlipBeforeCopy rest

/-- The capture state after the failing trace of claim C7: a first frame at
1920x1080 (slot 1 created, generation 0), one render (which creates the shader
resource view for generation 0), then a resized frame at 1280x720 (slot 0
created, generation 1, index flipped to 0). -/
def c7state : CaptureState :=
  onFrameArrived true 1280 720
    (renderCurrentFrame true (onFrameArrived true 1920 1080 (captureInit 1920 1080))).1

/-! # Theorems -/

/-! ## Shader transform -/

theorem distSqToCenter_nonneg (p : ℚ × ℚ) : 0 ≤ distSqToCenter p := by
  unfold distSqToCenter; positivity

theorem distSq_zoomedCoord (z : ℚ) (uv : ℚ × ℚ) (hz : z ≠ 0) :
    distSqToCenter (zoomedCoord z uv) = distSqToCenter uv / z ^ 2 := by
  unfold distSqToCenter zoomedCoord shaderCenter
  field_simp
  ring

/-- Claim C1 (amended): the fragment transform computes
`sampleUv = (0.5,0.5) + (uv - (0.5,0.5)) / zoomFactor`; the center maps to the
center for every zoom factor; zoom factor 1 is the identity; and for every uv
other than the center the distance of the sample coordinate from the center
strictly decreases as the zoom factor increases from at least 1. -/
theorem C1_magnification_transform (uv : ℚ × ℚ) (z z1 z2 : ℚ) :
    zoomedCoord z uv = specSampleUv z uv ∧
    zoomedCoord z shaderCenter = shaderCenter ∧
    zoomedCoord 1 uv = uv ∧
    (uv ≠ shaderCenter → 1 ≤ z1 → z1 < z2 →
      Real.sqrt ((distSqToCenter (zoomedCoord z2 uv) : ℚ) : ℝ) <
      Real.sqrt ((distSqToCenter (zoomedCoord z1 uv) : ℚ) : ℝ)) := by
  refine ⟨rfl, ?_, ?_, ?_⟩
  · unfold zoomedCoord shaderCenter
    norm_num
  · unfold zoomedCoord shaderCenter
    rw [Prod.ext_iff]
    constructor <;> simp
  · intro huv hz1 hz2
    have hz1pos : (0:ℚ) < z1 := lt_of_lt_of_le one_pos hz1
    have hz2pos : (0:ℚ) < z2 := hz1pos.trans hz2
    have hsq : 0 < distSqToCenter uv := by
      have hne : uv.1 ≠ 1/2 ∨ uv.2 ≠ 1/2 := by
        by_contra hcon
        push_neg at hcon
        exact huv (Prod.ext hcon.1 hcon.2)
      unfold distSqToCenter
      rcases hne with h1 | h2
      · have : uv.1 - 1/2 ≠ 0 := sub_ne_zero.mpr h1
        nlinarith [sq_nonneg (uv.2 - 1/2), sq_nonneg (uv.1 - 1/2), sq_abs (uv.1 - 1/2),
          abs_pos.mpr this, mul_pos (abs_pos.mpr this) (abs_pos.mpr this)]
      · have : uv.2 - 1/2 ≠ 0 := sub_ne_zero.mpr h2
        nlinarith [sq_nonneg (uv.1 - 1/2), sq_nonneg (uv.2 - 1/2), sq_abs (uv.2 - 1/2),
          abs_pos.mpr this, mul_pos (abs_pos.mpr this) (abs_pos.mpr this)]
    have key : distSqToCenter (zoomedCoord z2 uv) < distSqToCenter (zoomedCoord z1 uv) := by
      rw [distSq_zoomedCoord z1 uv (ne_of_gt hz1pos), distSq_zoomedCoord z2 uv (ne_of_gt hz2pos)]
      have hzz : z1 ^ 2 < z2 ^ 2 := by nlinarith
      exact div_lt_div_of_pos_left hsq (pow_pos hz1pos 2) hzz
    have hnn : (0:ℝ) ≤ ((distSqToCenter (zoomedCoord z2 uv) : ℚ) : ℝ) := by
      exact_mod_cast distSqToCenter_nonneg _
    exact Real.sqrt_lt_sqrt hnn (by exact_mod_cast key)

/-- Claim C1 as written is false at uv = (0.5, 0.5): there the distance of the
sample coordinate from the center is 0 for every zoom factor, so it does not
strictly decrease between zoom factor 1 and zoom factor 2. -/
theorem C1_counterexample_center :
    ¬ (Real.sqrt ((distSqToCenter (zoomedCoord 2 shaderCenter) : ℚ) : ℝ) <
       Real.sqrt ((distSqToCenter (zoomedCoord 1 shaderCenter) : ℚ) : ℝ)) := by
  have h2 : distSqToCenter (zoomedCoord 2 shaderCenter) = 0 := by
    norm_num [distSqToCenter, zoomedCoord, shaderCenter]
  have h1 : distSqToCenter (zoomedCoord 1 shaderCenter) = 0 := by
    norm_num [distSqToCenter, zoomedCoord, shaderCenter]
  rw [h1, h2]
  simp

/-- Witness for claim C1 at uv = (0, 0), zoom factors 1 and 2. -/
theorem C1_magnification_transform_witness :
    ((0:ℚ), (0:ℚ)) ≠ shaderCenter ∧ (1:ℚ) ≤ 1 ∧ (1:ℚ) < 2 ∧
    Real.sqrt ((distSqToCenter (zoomedCoord 2 ((0:ℚ), (0:ℚ))) : ℚ) : ℝ) <
      Real.sqrt ((distSqToCenter (zoomedCoord 1 ((0:ℚ), (0:ℚ))) : ℚ) : ℝ) := by
  have hne : ((0:ℚ), (0:ℚ)) ≠ shaderCenter := by simp [shaderCenter, Prod.ext_iff]
  exact ⟨hne, le_refl 1, one_lt_two,
    (C1_magnification_transform ((0:ℚ), (0:ℚ)) 1 1 2).2.2.2 hne (le_refl 1) one_lt_two⟩

/-- Claim C2: the fragment shader returns the transparent-black constant (with
no texture read) exactly when the computed sample coordinate lies outside the
unit square, and every texture sample it performs is at a coordinate inside the
unit square (namely the computed coordinate itself). -/
theorem C2_out_of_bounds_transparent (m : ℚ) (uv : ℚ × ℚ) :
    (psMain m uv = PSOutput.transparentBlack ↔ ¬ insideUnitSquare (zoomedCoord m uv)) ∧
    (∀ c, psMain m uv = PSOutput.sampled c → insideUnitSquare c ∧ c = zoomedCoord m uv) := by
  constructor
  · unfold psMain
    split <;> simp_all
  · intro c hc
    unfold psMain at hc
    split at hc
    · next h =>
      cases hc
      exact ⟨h, rfl⟩
    · cases hc

/-- Witness for claim C2 at zoom factor 1/2 and uv = (0, 0), whose sample
coordinate (-1/2, -1/2) lies outside the unit square. -/
theorem C2_out_of_bounds_transparent_witness :
    ¬ insideUnitSquare (zoomedCoord (1/2 : ℚ) (0, 0)) ∧
    psMain (1/2 : ℚ) (0, 0) = PSOutput.transparentBlack := by
  have hout : ¬ insideUnitSquare (zoomedCoord (1/2 : ℚ) (0, 0)) := by
    norm_num [insideUnitSquare, zoomedCoord, shaderCenter]
  exact ⟨hout, (C2_out_of_bounds_transparent (1/2) (0, 0)).1.mpr hout⟩

/-! ## Zoom controller -/

/-- Claim C3: each tick the controller targets `ZOOMED_MAGNIFICATION` when the
trigger is held and `DEFAULT_ZOOM = 1` otherwise, and advances the current zoom
by exactly `current + (target - current) * min(1, dt / smoothingWindow)` with
the fixed window of 5 ms; the zoom starts at 1.0 and a run of ticks changes it
only by iterating this step. -/
theorem C3_zoom_controller_law (c dt : ℚ) (held : Bool) (ticks : List (Bool × ℚ))
    (t : Bool × ℚ) :
    targetZoomOf held = (if held then ZOOMED_MAGNIFICATION else DEFAULT_ZOOM) ∧
    zoomStep c held dt = c + (targetZoomOf held - c) * min 1 (dt / smoothingWindow) ∧
    zoomTrace [] = DEFAULT_ZOOM ∧
    zoomTrace (ticks ++ [t]) = zoomStep (zoomTrace ticks) t.1 t.2 := by
  refine ⟨rfl, ?_, rfl, ?_⟩
  · unfold zoomStep smoothingWindow ZOOM_SMOOTHING_FACTOR
    norm_num [div_eq_mul_inv]
  · unfold zoomTrace
    simp [List.foldl_append]

theorem smoothFactor_mem (dt : ℚ) (hdt : 0 ≤ dt) :
    0 ≤ min 1 (dt * ZOOM_SMOOTHING_FACTOR) ∧ min 1 (dt * ZOOM_SMOOTHING_FACTOR) ≤ 1 :=
  ⟨le_min zero_le_one (by unfold ZOOM_SMOOTHING_FACTOR; positivity), min_le_left _ _⟩

theorem zoomStep_bounds (c dt : ℚ) (held : Bool) (h1 : DEFAULT_ZOOM ≤ c)
    (h2 : c ≤ ZOOMED_MAGNIFICATION) (hdt : 0 ≤ dt) :
    DEFAULT_ZOOM ≤ zoomStep c held dt ∧ zoomStep c held dt ≤ ZOOMED_MAGNIFICATION := by
  obtain ⟨hs0, hs1⟩ := smoothFactor_mem dt hdt
  simp only [DEFAULT_ZOOM, ZOOMED_MAGNIFICATION] at h1 h2 ⊢
  simp only [zoomStep, targetZoomOf, DEFAULT_ZOOM, ZOOMED_MAGNIFICATION]
  cases held <;> simp only [if_true, if_false, Bool.false_eq_true, ite_true, ite_false] <;>
    constructor <;> nlinarith [hs0, hs1]

theorem zoomStep_true_mono (c dt : ℚ) (h2 : c ≤ ZOOMED_MAGNIFICATION) (hdt : 0 ≤ dt) :
    c ≤ zoomStep c true dt := by
  obtain ⟨hs0, hs1⟩ := smoothFactor_mem dt hdt
  simp only [ZOOMED_MAGNIFICATION] at h2
  simp only [zoomStep, targetZoomOf, ZOOMED_MAGNIFICATION, ite_true]
  nlinarith [hs0, hs1]

theorem scanl_head_eq (f : ℚ → ℚ → ℚ) (c : ℚ) (l : List ℚ) :
    (List.scanl f c l).head? = some c := by
  cases l <;> simp [List.scanl]

theorem heldScan_chain (dts : List ℚ) (c : ℚ) (hc1 : DEFAULT_ZOOM ≤ c)
    (hc2 : c ≤ ZOOMED_MAGNIFICATION) (h : ∀ dt ∈ dts, 0 ≤ dt) :
    List.Chain' (· ≤ ·) (List.scanl (fun x dt => zoomStep x true dt) c dts) ∧
    ∀ x ∈ List.scanl (fun x dt => zoomStep x true dt) c dts, x ≤ ZOOMED_MAGNIFICATION := by
  induction dts generalizing c with
  | nil => simp [List.scanl, hc2]
  | cons d ds ih =>
    have hd : 0 ≤ d := h d (by simp)
    have hrest : ∀ dt ∈ ds, 0 ≤ dt := fun dt hdt => h dt (by simp [hdt])
    obtain ⟨hb1, hb2⟩ := zoomStep_bounds c d true hc1 hc2 hd
    obtain ⟨ihc, ihb⟩ := ih (zoomStep c true d) hb1 hb2 hrest
    rw [List.scanl]
    refine ⟨List.chain'_cons'.mpr ⟨?_, ihc⟩, ?_⟩
    · intro y hy
      rw [scanl_head_eq] at hy
      cases hy
      exact zoomStep_true_mono c d hc2 hd
    · intro x hx
      rcases List.mem_cons.mp hx with hx | hx
      · exact hx ▸ hc2
      · exact ihb x hx

/-- Claim C4: with the trigger held continuously from current = 1.0 toward
target = 2.0 and nonnegative tick times, the sequence of zoom values is
non-decreasing and never exceeds the target, and once the current value equals
the target a further held tick leaves it unchanged. -/
theorem C4_monotone_no_overshoot (dts : List ℚ) (h : ∀ dt ∈ dts, 0 ≤ dt) (c dt : ℚ) :
    List.Chain' (· ≤ ·) (heldZoomSeq dts) ∧
    (∀ x ∈ heldZoomSeq dts, x ≤ ZOOMED_MAGNIFICATION) ∧
    (c = ZOOMED_MAGNIFICATION → zoomStep c true dt = c) := by
  have hinit1 : DEFAULT_ZOOM ≤ DEFAULT_ZOOM := le_refl _
  have hinit2 : DEFAULT_ZOOM ≤ ZOOMED_MAGNIFICATION := by
    unfold DEFAULT_ZOOM ZOOMED_MAGNIFICATION; norm_num
  obtain ⟨hchain, hbound⟩ := heldScan_chain dts DEFAULT_ZOOM hinit1 hinit2 h
  refine ⟨hchain, hbound, ?_⟩
  rintro rfl
  unfold zoomStep targetZoomOf
  simp

/-- Witness for claim C4 on the tick sequence [5 ms, 5 ms]. -/
theorem C4_monotone_no_overshoot_witness :
    (∀ dt ∈ ([5, 5] : List ℚ), 0 ≤ dt) ∧
    (List.Chain' (· ≤ ·) (heldZoomSeq [5, 5]) ∧
     (∀ x ∈ heldZoomSeq [5, 5], x ≤ ZOOMED_MAGNIFICATION) ∧
     ((2:ℚ) = ZOOMED_MAGNIFICATION → zoomStep 2 true 5 = 2)) := by
  have h : ∀ dt ∈ ([5, 5] : List ℚ), (0:ℚ) ≤ dt := by simp
  exact ⟨h, C4_monotone_no_overshoot [5, 5] h 2 5⟩

theorem zoomFold_bounds (ticks : List (Bool × ℚ)) (c : ℚ) (h1 : DEFAULT_ZOOM ≤ c)
    (h2 : c ≤ ZOOMED_MAGNIFICATION) (h : ∀ t ∈ ticks, 0 ≤ t.2) :
    DEFAULT_ZOOM ≤ ticks.foldl (fun x t => zoomStep x t.1 t.2) c ∧
    ticks.foldl (fun x t => zoomStep x t.1 t.2) c ≤ ZOOMED_MAGNIFICATION := by
  induction ticks generalizing c with
  | nil => exact ⟨h1, h2⟩
  | cons t ts ih =>
    simp only [List.foldl_cons]
    obtain ⟨hb1, hb2⟩ := zoomStep_bounds c t.2 t.1 h1 h2 (h t (by simp))
    exact ih (zoomStep c t.1 t.2) hb1 hb2 (fun t' ht' => h t' (by simp [ht']))

/-- Claim C10: along every sequence of ticks with nonnegative elapsed times the
smoothed zoom stays in the closed interval [DEFAULT_ZOOM, ZOOMED_MAGNIFICATION]
= [1, 2]. -/
theorem C10_zoom_bounded (ticks : List (Bool × ℚ)) (h : ∀ t ∈ ticks, 0 ≤ t.2) :
    DEFAULT_ZOOM ≤ zoomTrace ticks ∧ zoomTrace ticks ≤ ZOOMED_MAGNIFICATION := by
  unfold zoomTrace
  exact zoomFold_bounds ticks DEFAULT_ZOOM (le_refl _)
    (by unfold DEFAULT_ZOOM ZOOMED_MAGNIFICATION; norm_num) h

/-- Witness for claim C10 on a held tick then a released tick. -/
theorem C10_zoom_bounded_witness :
    (∀ t ∈ ([(true, 1), (false, 2)] : List (Bool × ℚ)), 0 ≤ t.2) ∧
    (DEFAULT_ZOOM ≤ zoomTrace [(true, 1), (false, 2)] ∧
     zoomTrace [(true, 1), (false, 2)] ≤ ZOOMED_MAGNIFICATION) := by
  have h : ∀ t ∈ ([(true, 1), (false, 2)] : List (Bool × ℚ)), (0:ℚ) ≤ t.2 := by simp
  exact ⟨h, C10_zoom_bounded [(true, 1), (false, 2)] h⟩

/-! ## Toggle edge semantics -/

/-- Claim C5: asserting the toggle flag is idempotent (so two assertions before
consumption act as one), consuming it flips visibility exactly once and clears
the flag, and a further consumption without a new assertion changes nothing. -/
theorem C5_toggle_consumed_once (s : ToggleState) :
    requestToggle (requestToggle s) = requestToggle s ∧
    (processToggle (requestToggle s)).windowVisible = !s.windowVisible ∧
    (processToggle (requestToggle s)).windowToggleRequest = false ∧
    processToggle (processToggle (requestToggle s)) = processToggle (requestToggle s) := by
  cases s
  simp [requestToggle, processToggle]

/-! ## Frame pacing -/

/-- Claim C6 (code bug): for a tick of 1 ms the claim prescribes sleeping the
7333000 ns remainder, but because line 1048 takes `std::min` of the remainder
and one nanosecond, the code requests a 1 ns sleep. -/
theorem C6_sleep_remainder_bug :
    mainLoopSleep_ns 1000000 = 1 ∧
    specSleepRemainder_ns 1000000 = 7333000 ∧
    mainLoopSleep_ns 1000000 ≠ specSleepRemainder_ns 1000000 := by
  refine ⟨by decide, by decide, by decide⟩

/-! ## Device creation -/

/-- Claim C8 (amended): device creation fails fatally exactly when the
hardware-with-build-flags attempt, the hardware-without-debug attempt and the
WARP attempt all fail; the driver used is the first of the chain to succeed;
and on success the maximum in-flight frame latency is pinned to 1 whenever the
`IDXGIDevice1` interface query succeeds. -/
theorem C8_device_fallback (dbgBuild : Bool) (env : D3DEnv) :
    ((initializeDirectXDevice dbgBuild env).success = false ↔
      (env.createDeviceOk DriverType.hardware dbgBuild = false ∧
       env.createDeviceOk DriverType.hardware false = false ∧
       env.createDeviceOk DriverType.warp false = false)) ∧
    (env.createDeviceOk DriverType.hardware dbgBuild = true →
      (initializeDirectXDevice dbgBuild env).driverUsed =
        some (DriverType.hardware, dbgBuild)) ∧
    (env.createDeviceOk DriverType.hardware dbgBuild = false →
     env.createDeviceOk DriverType.hardware false = true →
      (initializeDirectXDevice dbgBuild env).driverUsed =
        some (DriverType.hardware, false)) ∧
    (env.createDeviceOk DriverType.hardware dbgBuild = false →
     env.createDeviceOk DriverType.hardware false = false →
     env.createDeviceOk DriverType.warp false = true →
      (initializeDirectXDevice dbgBuild env).driverUsed = some (DriverType.warp, false)) ∧
    ((initializeDirectXDevice dbgBuild env).success = true → env.dxgi1Available = true →
      (initializeDirectXDevice dbgBuild env).maxFrameLatency = some MAX_FRAME_LATENCY) := by
  cases dbgBuild <;>
    cases hT : env.createDeviceOk DriverType.hardware true <;>
    cases hF : env.createDeviceOk DriverType.hardware false <;>
    cases hW : env.createDeviceOk DriverType.warp false <;>
    cases hX : env.dxgi1Available <;>
    simp_all [initializeDirectXDevice, deviceCreated]

/-- Claim C8 as written is false on a device whose `IDXGIDevice1` query fails:
all creation attempts succeed, initialization succeeds, yet the maximum frame
latency is not pinned to 1 because lines 602-606 skip the call when the
interface query fails. -/
theorem C8_counterexample_no_dxgi1 :
    (initializeDirectXDevice false ⟨fun _ _ => true, false⟩).success = true ∧
    (initializeDirectXDevice false ⟨fun _ _ => true, false⟩).maxFrameLatency ≠
      some MAX_FRAME_LATENCY := by
  decide

/-- Witness for claim C8: a debug build where both hardware attempts fail and
WARP succeeds, with the latency interface available. -/
theorem C8_device_fallback_witness :
    ((⟨fun d _ => match d with | DriverType.warp => true | DriverType.hardware => false,
        true⟩ : D3DEnv).createDeviceOk DriverType.hardware true = false) ∧
    ((⟨fun d _ => match d with | DriverType.warp => true | DriverType.hardware => false,
        true⟩ : D3DEnv).createDeviceOk DriverType.warp false = true) ∧
    (initializeDirectXDevice true
      ⟨fun d _ => match d with | DriverType.warp => true | DriverType.hardware => false,
        true⟩).driverUsed = some (DriverType.warp, false) ∧
    (initializeDirectXDevice true
      ⟨fun d _ => match d with | DriverType.warp => true | DriverType.hardware => false,
        true⟩).maxFrameLatency = some MAX_FRAME_LATENCY := by
  refine ⟨by decide, by decide, ?_, ?_⟩
  · exact (C8_device_fallback true
      ⟨fun d _ => match d with | DriverType.warp => true | DriverType.hardware => false,
        true⟩).2.2.2.1 (by decide) (by decide) (by decide)
  · exact (C8_device_fallback true
      ⟨fun d _ => match d with | DriverType.warp => true | DriverType.hardware => false,
        true⟩).2.2.2.2 (by decide) (by decide)

/-! ## Two-slot frame relay -/

/-- Claim C9: the producer's copy always targets the slot other than the one
the consumer reads, the current-slot index is flipped only after the copy is
issued (never before), and after a step that performed a copy the index names
the freshly written slot. -/
theorem C9_relay_write_read_disjoint (s : CaptureState) (createOk : Bool) (w h : Int) :
    nextSlot s ≠ readSlot s ∧
    (∀ slot, RelayOp.copyInto slot ∈ onFrameArrivedOps createOk w h s →
      slot = nextSlot s ∧ slot ≠ readSlot s) ∧
    indexFlipBeforeCopy (onFrameArrivedOps createOk w h s) = false ∧
    (RelayOp.copyInto (nextSlot s) ∈ onFrameArrivedOps createOk w h s →
      (onFrameArrived createOk w h s).currentCaptureTexture = nextSlot s) := by
  have hne : nextSlot s ≠ readSlot s := by
    unfold nextSlot readSlot
    intro hcon
    have hval := congrArg Fin.val hcon
    simp only at hval
    have hlt : s.currentCaptureTexture.val < 2 := s.currentCaptureTexture.isLt
    omega
  refine ⟨hne, ?_, ?_, ?_⟩ <;>
    (simp only [onFrameArrivedOps, onFrameArrived]
     by_cases hcond : getTex s (nextSlot s) = none ∨ w ≠ s.screenWidth ∨ h ≠ s.screenHeight) <;>
    cases createOk <;>
    simp_all [indexFlipBeforeCopy, List.any]

/-- Witness for claim C9: the first frame arriving at the initial state copies
into slot 1 while the consumer's slot is 0, then flips the index to 1. -/
theorem C9_relay_write_read_disjoint_witness :
    RelayOp.copyInto (nextSlot (captureInit 1920 1080)) ∈
      onFrameArrivedOps true 1920 1080 (captureInit 1920 1080) ∧
    (onFrameArrived true 1920 1080 (captureInit 1920 1080)).currentCaptureTexture =
      nextSlot (captureInit 1920 1080) ∧
    nextSlot (captureInit 1920 1080) ≠ readSlot (captureInit 1920 1080) := by
  have hmem : RelayOp.copyInto (nextSlot (captureInit 1920 1080)) ∈
      onFrameArrivedOps true 1920 1080 (captureInit 1920 1080) := by decide
  exact ⟨hmem,
    (C9_relay_write_read_disjoint (captureInit 1920 1080) true 1920 1080).2.2.2 hmem,
    (C9_relay_write_read_disjoint (captureInit 1920 1080) true 1920 1080).1⟩

/-! ## Shader resource view staleness -/

/-- Claim C7 (code bug): after a first 1920x1080 frame, a render, and a resized
1280x720 frame (which recreates the inactive slot texture as generation 1 and
flips the index to it), the next render still samples through the shader
resource view created for the generation-0 texture, because
`RenderCurrentFrame` creates the view only when `g_FrameShaderResourceView` is
null and nothing resets it on texture recreation. -/
theorem C7_stale_view_after_resize :
    (renderCurrentFrame true c7state).2 = some 0 ∧
    (getTex c7state (readSlot c7state)).map TextureDesc.gen = some 1 ∧
    (renderCurrentFrame true c7state).2 ≠
      (getTex c7state (readSlot c7state)).map TextureDesc.gen := by
  decide

end Zoomin
